import Mathlib

open scoped List

/-!
Verification of the personalized feed composition engine ("Explore") of the
thrifter storefront directory.

The definitions below are a shallow embedding of the backend source:
* `src/backend/src/routes/explore.ts` — the explore routes (`/sections`,
  `/trending`, `/for-you`, `/new`, `/category/:category`) and the helper
  `getPersonalizedShops`;
* the auth route's `parseOnboardingAnswers` helper and the mongoose
  `userPreferencesSchema` / `userSchema` defaults.

Database reads (`Shop.find`, `Shop.aggregate` with `$sample`, `User.findById`)
are modelled through a `Repo` record: the catalog is a list of shop records,
sorting is the repository adapter's stable sort, `$sample` is an arbitrary
sampling function constrained by `SampleSpec`, and each read can be made to
fail (mongoose promise rejection) through a per-operation failure flag, which
the route handlers catch exactly as the surrounding `try/catch` does.
-/

/-- A catalog entry (`IShop` in the source): identifier, single category tag,
location identifier, rating, review count, creation timestamp, active flag.
Fields not consulted by the explore engine are omitted. -/
structure Shop where
  id : Nat
  name : String
  tag : String
  locationId : String
  rating : ℚ
  reviewCount : Nat
  createdAt : Nat
  isActive : Bool
deriving DecidableEq

/-- Budget subdocument of `IUserPreferences`. -/
structure Budget where
  min : Nat
  max : Nat
  currency : String
deriving DecidableEq

/-- Sizes subdocument of `IUserPreferences`. -/
structure Sizes where
  tops : String
  bottoms : String
  shoes : String
deriving DecidableEq

/-- `IUserPreferences`: the stored preference record, after mongoose has
applied the `userPreferencesSchema` path defaults (every field present). -/
structure Preferences where
  style : List String
  budget : Budget
  favoriteCategories : List String
  sizes : Sizes
  favoriteLocations : List String
  shoppingFrequency : String
  sustainabilityImportance : Nat
  vintagePreference : Nat
  brandPreference : String
  aestheticVibes : List String
deriving DecidableEq

/-- Partially specified budget as produced by `parseOnboardingAnswers`
(`{ ...budgetMap[answers.budget], currency: "INR" }` can leave `min`/`max`
absent when the bracket key is not in `budgetMap`). -/
structure BudgetInput where
  min : Option Nat := none
  max : Option Nat := none
  currency : Option String := none
deriving DecidableEq

/-- Partially specified sizes subdocument. -/
structure SizesInput where
  tops : Option String := none
  bottoms : Option String := none
  shoes : Option String := none
deriving DecidableEq

/-- The partial preference object built by `parseOnboardingAnswers`: any
field the answers do not mention is left unset and later filled in by the
mongoose schema defaults. -/
structure PreferencesInput where
  style : Option (List String) := none
  budget : Option BudgetInput := none
  favoriteCategories : Option (List String) := none
  sizes : Option SizesInput := none
  favoriteLocations : Option (List String) := none
  shoppingFrequency : Option String := none
  sustainabilityImportance : Option Nat := none
  vintagePreference : Option Nat := none
  brandPreference : Option String := none
  aestheticVibes : Option (List String) := none
deriving DecidableEq

/-- The raw onboarding answer map (question identifier → answer), with each
question optional.  Hyphenated keys (`sizes-tops`, `vintage-preference`,
`brand-preference`) become camel-cased field names. -/
structure OnboardingAnswers where
  style : Option (List String) := none
  budget : Option String := none
  categories : Option (List String) := none
  sizesTops : Option String := none
  sizesBottoms : Option String := none
  locations : Option (List String) := none
  frequency : Option String := none
  sustainability : Option Nat := none
  vintagePreference : Option Nat := none
  brandPreference : Option String := none
deriving DecidableEq

/-- The `budgetMap` lookup inside `parseOnboardingAnswers`: the four named
brackets; any other key misses (`budgetMap[answers.budget]` is `undefined`). -/
def budgetBracketMap : String → Option (Nat × Nat)
  | "budget-low" => some (0, 500)
  | "budget-mid" => some (500, 1500)
  | "budget-high" => some (1500, 3000)
  | "budget-premium" => some (3000, 10000)
  | _ => none

/-- `parseOnboardingAnswers` from the auth routes: copies each present answer
into the preference object; the budget answer is spread from the bracket
lookup together with `currency: "INR"`, so an unrecognized bracket key yields
a budget object with only the currency set. -/
def parseOnboardingAnswers (answers : OnboardingAnswers) : PreferencesInput :=
  { style := answers.style
    budget := answers.budget.map (fun b =>
      { min := (budgetBracketMap b).map Prod.fst
        max := (budgetBracketMap b).map Prod.snd
        currency := some "INR" })
    favoriteCategories := answers.categories
    sizes := answers.sizesTops.map (fun t =>
      { tops := some t
        bottoms := some (answers.sizesBottoms.getD "")
        shoes := some "" })
    favoriteLocations := answers.locations
    shoppingFrequency := answers.frequency
    sustainabilityImportance := answers.sustainability
    vintagePreference := answers.vintagePreference
    brandPreference := answers.brandPreference
    aestheticVibes := none }

/-- The `userPreferencesSchema` path defaults: every path of the preference
subdocument that the input leaves unset receives its schema default. -/
def applyPreferenceDefaults (p : PreferencesInput) : Preferences :=
  { style := p.style.getD []
    budget :=
      { min := ((p.budget.getD {}).min).getD 0
        max := ((p.budget.getD {}).max).getD 5000
        currency := ((p.budget.getD {}).currency).getD "INR" }
    favoriteCategories := p.favoriteCategories.getD []
    sizes :=
      { tops := ((p.sizes.getD {}).tops).getD "m"
        bottoms := ((p.sizes.getD {}).bottoms).getD "30-32"
        shoes := ((p.sizes.getD {}).shoes).getD "" }
    favoriteLocations := p.favoriteLocations.getD []
    shoppingFrequency := p.shoppingFrequency.getD "monthly"
    sustainabilityImportance := p.sustainabilityImportance.getD 3
    vintagePreference := p.vintagePreference.getD 3
    brandPreference := p.brandPreference.getD "no-preference"
    aestheticVibes := p.aestheticVibes.getD [] }

/-- The Preference Profile Builder: raw onboarding answers through
`parseOnboardingAnswers`, then the mongoose schema defaults. -/
def buildPreferenceProfile (answers : OnboardingAnswers) : Preferences :=
  applyPreferenceDefaults (parseOnboardingAnswers answers)

/-- The fully-defaulted preference profile (`userPreferencesSchema` with an
empty input object). -/
def defaultPreferences : Preferences :=
  { style := []
    budget := { min := 0, max := 5000, currency := "INR" }
    favoriteCategories := []
    sizes := { tops := "m", bottoms := "30-32", shoes := "" }
    favoriteLocations := []
    shoppingFrequency := "monthly"
    sustainabilityImportance := 3
    vintagePreference := 3
    brandPreference := "no-preference"
    aestheticVibes := [] }

/-! ### Sort relations used by the explore queries

The Shop Repository Adapter contract (spec §6, §4.4) provides stable sorted
queries; each mongo `.sort(keys)` becomes a stable `insertionSort` under the
lexicographic "comes no later than" relation for those keys. -/

/-- `.sort({ reviewCount: -1, rating: -1 })`: `a` may precede `b`. -/
def trendLE (a b : Shop) : Prop :=
  b.reviewCount < a.reviewCount ∨
    (a.reviewCount = b.reviewCount ∧ b.rating ≤ a.rating)

instance : DecidableRel trendLE := fun a b =>
  inferInstanceAs (Decidable (_ ∨ _ ∧ _))

instance : IsTotal Shop trendLE where
  total a b := by
    rcases Nat.lt_trichotomy a.reviewCount b.reviewCount with h | h | h
    · exact Or.inr (Or.inl h)
    · rcases le_total a.rating b.rating with hr | hr
      · exact Or.inr (Or.inr ⟨h.symm, hr⟩)
      · exact Or.inl (Or.inr ⟨h, hr⟩)
    · exact Or.inl (Or.inl h)

instance : IsTrans Shop trendLE where
  trans a b c hab hbc := by
    rcases hab with h1 | ⟨h1, h1'⟩ <;> rcases hbc with h2 | ⟨h2, h2'⟩
    · exact Or.inl (h2.trans h1)
    · exact Or.inl (h2 ▸ h1)
    · exact Or.inl (h1 ▸ h2)
    · exact Or.inr ⟨h1.trans h2, h2'.trans h1'⟩

/-- `.sort({ rating: -1, reviewCount: -1 })` (the personalized query). -/
def ratingLE (a b : Shop) : Prop :=
  b.rating < a.rating ∨ (a.rating = b.rating ∧ b.reviewCount ≤ a.reviewCount)

instance : DecidableRel ratingLE := fun a b =>
  inferInstanceAs (Decidable (_ ∨ _ ∧ _))

instance : IsTotal Shop ratingLE where
  total a b := by
    rcases lt_trichotomy a.rating b.rating with h | h | h
    · exact Or.inr (Or.inl h)
    · rcases Nat.le_total a.reviewCount b.reviewCount with hr | hr
      · exact Or.inr (Or.inr ⟨h.symm, hr⟩)
      · exact Or.inl (Or.inr ⟨h, hr⟩)
    · exact Or.inl (Or.inl h)

instance : IsTrans Shop ratingLE where
  trans a b c hab hbc := by
    rcases hab with h1 | ⟨h1, h1'⟩ <;> rcases hbc with h2 | ⟨h2, h2'⟩
    · exact Or.inl (h2.trans h1)
    · exact Or.inl (h2 ▸ h1)
    · exact Or.inl (h1 ▸ h2)
    · exact Or.inr ⟨h1.trans h2, h2'.trans h1'⟩

/-- `.sort({ createdAt: -1 })` (the recency query). -/
def createdLE (a b : Shop) : Prop := b.createdAt ≤ a.createdAt

instance : DecidableRel createdLE := fun a b =>
  inferInstanceAs (Decidable (_ ≤ _))

instance : IsTotal Shop createdLE where
  total a b := Nat.le_total b.createdAt a.createdAt

instance : IsTrans Shop createdLE where
  trans _ _ _ hab hbc := Nat.le_trans hbc hab

/-- `.sort({ rating: -1 })` (the category query). -/
def catRatingLE (a b : Shop) : Prop := b.rating ≤ a.rating

instance : DecidableRel catRatingLE := fun a b =>
  inferInstanceAs (Decidable (_ ≤ _))

instance : IsTotal Shop catRatingLE where
  total a b := le_total b.rating a.rating

instance : IsTrans Shop catRatingLE where
  trans _ _ _ hab hbc := le_trans hbc hab

/-! ### Recommendation output model -/

/-- The `basedOn` enumeration of a `RecommendationItem`. -/
inductive RecBasis where
  | style
  | history
  | similarUsers
  | trending
deriving DecidableEq

/-- A `RecommendationItem`: shop, reason string, match score, basis tag. -/
structure RecItem where
  shop : Shop
  reason : String
  matchScore : ℚ
  basedOn : RecBasis
deriving DecidableEq

/-- A `RecommendationSection`: title, subtitle, type tag, ordered items. -/
structure RecSection where
  title : String
  subtitle : String
  type : String
  items : List RecItem
deriving DecidableEq

/-! ### Repository model -/

/-- `IUser` as stored: mongoose types the `preferences` subdocument, but a raw
document could lack it, which is why the `/sections` handler guards with
`user?.preferences`; `User.create` always populates it (schema default). -/
structure StoredUser where
  email : String
  name : String
  preferences : Option Preferences
  onboardingCompleted : Bool

/-- The distinct database reads issued by the explore routes. -/
inductive RepoOp where
  | findUserOp
  | personalizedOp
  | sampleOp
  | trendingOp
  | newOp
deriving DecidableEq

/-- The database as the explore routes see it: the shop catalog (in insertion
order), the user store, the `$sample` stage, and a per-operation failure flag
(a rejected mongoose promise, landing in the handler's `catch`). -/
structure Repo where
  catalog : List Shop
  users : Nat → Option StoredUser
  sample : Nat → List Shop → List Shop
  fails : RepoOp → Bool

/-- A read either rejects (failure flag set) or returns its value. -/
def Repo.read (r : Repo) (op : RepoOp) (val : α) : Except String α :=
  if r.fails op then .error "database error" else .ok val

/-- No read fails. -/
def noFails (r : Repo) : Prop := ∀ op, r.fails op = false

/-- Contract of the `$sample` stage (spec §4.7): a sample without replacement
from the pool — modelled as a sublist — whose size is the requested size
capped by the pool size. -/
structure SampleSpec (sample : Nat → List Shop → List Shop) : Prop where
  sublist : ∀ k pool, sample k pool <+ pool
  sampleLength : ∀ k pool, (sample k pool).length = min k pool.length

/-- A degenerate sampler (the first `k` of the pool); satisfies `SampleSpec`
and is used to instantiate witnesses. -/
def takeSampler (k : Nat) (pool : List Shop) : List Shop := pool.take k

/-! ### Style-Tag Mapper and the personalized query -/

/-- The static `styleToTagMap` of `getPersonalizedShops`. -/
def styleToTagMap : String → Option (List String)
  | "vintage" => some ["Vintage", "Pre-Loved", "Thrift"]
  | "y2k" => some ["Streetwear", "Hype"]
  | "grunge" => some ["Grunge", "Imports", "Alternative"]
  | "minimalist" => some ["Basics", "Premium"]
  | "streetwear" => some ["Streetwear", "Hype", "Urban"]
  | "cottagecore" => some ["Ethnic", "Boutique"]
  | "old-money" => some ["Premium", "Formal", "Classic"]
  | "bohemian" => some ["Ethnic", "Boutique", "Vintage"]
  | _ => none

/-- `preferredTags`: the tags contributed by each style vibe, in order;
vibes with no table entry contribute nothing. -/
def preferredTagsOf (styles : List String) : List String :=
  styles.flatMap (fun st => (styleToTagMap st).getD [])

/-- The mongo filter built by `getPersonalizedShops`: `isActive`, plus
`location.id ∈ favoriteLocations` when that list is non-empty, plus
`tag ∈ dedup(preferredTags)` when `preferredTags` is non-empty. -/
def personalizedFilter (p : Preferences) (s : Shop) : Bool :=
  s.isActive
    && (p.favoriteLocations.isEmpty || decide (s.locationId ∈ p.favoriteLocations))
    && ((preferredTagsOf p.style).isEmpty
        || decide (s.tag ∈ (preferredTagsOf p.style).eraseDups))

/-- The main personalized query: matching shops sorted by rating descending
then review count descending, limited to 12. -/
def personalizedQuery (catalog : List Shop) (p : Preferences) : List Shop :=
  ((catalog.filter (personalizedFilter p)).insertionSort ratingLE).take 12

/-- The `$match` pool of the backfill `$sample`: active shops whose `_id` is
not among the already selected ones. -/
def activeSamplePool (catalog : List Shop) (excluded : List Nat) : List Shop :=
  catalog.filter (fun s => s.isActive && decide (s.id ∉ excluded))

/-- `getPersonalizedShops` (pure content): the personalized query; when it
returns fewer than 6 shops, a random sample of size `6 − count` drawn from
the active catalog minus the already selected identifiers is appended. -/
def getPersonalizedShops (sample : Nat → List Shop → List Shop)
    (catalog : List Shop) (p : Preferences) : List Shop :=
  let shops := personalizedQuery catalog p
  if shops.length < 6 then
    shops ++ sample (6 - shops.length) (activeSamplePool catalog (shops.map Shop.id))
  else shops

/-- `getPersonalizedShops` as executed against the repository, where either
of its two reads (the filtered find, the `$sample` aggregate) may reject. -/
def getPersonalizedShopsE (r : Repo) (p : Preferences) : Except String (List Shop) :=
  match r.read .personalizedOp (personalizedQuery r.catalog p) with
  | .error e => .error e
  | .ok shops =>
    if shops.length < 6 then
      match r.read .sampleOp
          (r.sample (6 - shops.length) (activeSamplePool r.catalog (shops.map Shop.id))) with
      | .error e => .error e
      | .ok extra => .ok (shops ++ extra)
    else .ok shops

/-! ### Scorer queries shared by the routes -/

/-- The trending query (`/sections` uses limit 6, `/trending` limit 12):
active shops by review count descending then rating descending, take `n`. -/
def trendingShops (catalog : List Shop) (n : Nat) : List Shop :=
  ((catalog.filter (fun s => s.isActive)).insertionSort trendLE).take n

/-- The recency query: active shops by creation time descending, take `n`. -/
def newShops (catalog : List Shop) (n : Nat) : List Shop :=
  ((catalog.filter (fun s => s.isActive)).insertionSort createdLE).take n

/-- `GET /explore/trending`: the trending query with limit 12. -/
def getTrendingShops (catalog : List Shop) : List Shop :=
  ((catalog.filter (fun s => s.isActive)).insertionSort trendLE).take 12

/-- `GET /explore/new`: the recency query with limit 12. -/
def getNewShops (catalog : List Shop) : List Shop :=
  ((catalog.filter (fun s => s.isActive)).insertionSort createdLE).take 12

/-! ### The `/sections` composer -/

/-- The "For You" section pushed by `/sections` (constant reason string). -/
def forYouSection (shops : List Shop) : RecSection :=
  { title := "For You"
    subtitle := "Based on your style preferences"
    type := "for-you"
    items := shops.map (fun shop =>
      { shop := shop, reason := "Matches your style"
        matchScore := 0.85, basedOn := RecBasis.style }) }

/-- The "Trending This Week" section of `/sections`. -/
def trendingSection (shops : List Shop) : RecSection :=
  { title := "Trending This Week"
    subtitle := "Most visited stores in Bangalore"
    type := "trending"
    items := shops.map (fun shop =>
      { shop := shop, reason := "Popular choice"
        matchScore := 0.9, basedOn := RecBasis.trending }) }

/-- The "Recently Added" section of `/sections`. -/
def newSection (shops : List Shop) : RecSection :=
  { title := "Recently Added"
    subtitle := "Fresh finds in our database"
    type := "new"
    items := shops.map (fun shop =>
      { shop := shop, reason := "New addition"
        matchScore := 0.7, basedOn := RecBasis.similarUsers }) }

/-- The conditional "For You" block of `/sections`: only when the request is
authenticated, the user is found, and `user?.preferences` is present. -/
def forYouSectionsE (r : Repo) (uid : Option Nat) : Except String (List RecSection) :=
  match uid with
  | none => .ok []
  | some u =>
    match r.read .findUserOp (r.users u) with
    | .error e => .error e
    | .ok none => .ok []
    | .ok (some user) =>
      match user.preferences with
      | none => .ok []
      | some prefs =>
        match getPersonalizedShopsE r prefs with
        | .error e => .error e
        | .ok shops => .ok [forYouSection shops]

/-- The body of the `/sections` handler's `try` block. -/
def sectionsCore (r : Repo) (uid : Option Nat) : Except String (List RecSection) :=
  match forYouSectionsE r uid with
  | .error e => .error e
  | .ok fy =>
    match r.read .trendingOp (trendingShops r.catalog 6) with
    | .error e => .error e
    | .ok tr =>
      match r.read .newOp (newShops r.catalog 6) with
      | .error e => .error e
      | .ok nw => .ok (fy ++ [trendingSection tr, newSection nw])

/-- The HTTP envelope of `/explore/sections`. -/
structure SectionsResponse where
  status : Nat
  success : Bool
  data : List RecSection
  error : Option String
deriving DecidableEq

/-- The 500 response of the `/sections` `catch` block. -/
def sectionsErrorResponse : SectionsResponse :=
  { status := 500, success := false, data := []
    error := some "Failed to get explore sections" }

/-- `GET /explore/sections`: the composed sections on success, the generic
500 envelope (with no section data) when any read rejects. -/
def getSections (r : Repo) (uid : Option Nat) : SectionsResponse :=
  match sectionsCore r uid with
  | .ok sections =>
      { status := 200, success := true, data := sections, error := none }
  | .error _ => sectionsErrorResponse

/-! ### The `/for-you` route -/

/-- `user.preferences.style?.[0] || "style"`. -/
def firstStyleOr (styles : List String) : String :=
  match styles.head? with
  | some v => if v = "" then "style" else v
  | none => "style"

/-- The HTTP envelope of `/explore/for-you` (a single optional section). -/
structure ForYouResponse where
  status : Nat
  success : Bool
  data : Option RecSection
  error : Option String
deriving DecidableEq

/-- The 500 response of the `/for-you` `catch` block. -/
def forYouErrorResponse : ForYouResponse :=
  { status := 500, success := false, data := none
    error := some "Failed to get recommendations" }

/-- `GET /explore/for-you`: anonymous callers get a random sample of 12
active shops ("Recommended For You", reason "Popular in your area", score
0.7, basedOn trending); authenticated callers get `getPersonalizedShops`
wrapped with the style-vibe reason, score 0.85 and basedOn style. -/
def getForYou (r : Repo) (uid : Option Nat) : ForYouResponse :=
  match uid with
  | none =>
    match r.read .sampleOp (r.sample 12 (r.catalog.filter (fun s => s.isActive))) with
    | .error _ => forYouErrorResponse
    | .ok shops =>
      { status := 200, success := true
        data := some
          { title := "Recommended For You"
            subtitle := "Sign up to get personalized picks"
            type := "for-you"
            items := shops.map (fun shop =>
              { shop := shop, reason := "Popular in your area"
                matchScore := 0.7, basedOn := RecBasis.trending }) }
        error := none }
  | some u =>
    match r.read .findUserOp (r.users u) with
    | .error _ => forYouErrorResponse
    | .ok none =>
      { status := 404, success := false, data := none, error := some "User not found" }
    | .ok (some user) =>
      match user.preferences with
      | none => forYouErrorResponse
      | some prefs =>
        match getPersonalizedShopsE r prefs with
        | .error _ => forYouErrorResponse
        | .ok shops =>
          { status := 200, success := true
            data := some
              { title := "For You"
                subtitle := "Based on your style preferences"
                type := "for-you"
                items := shops.map (fun shop =>
                  { shop := shop
                    reason := "Matches your " ++ firstStyleOr prefs.style ++ " vibe"
                    matchScore := 0.85, basedOn := RecBasis.style }) }
            error := none }

/-! ### The `/category/:category` route -/

/-- The static `categoryTagMap` object of the category handler. -/
def categoryTagMap : List (String × List String) :=
  [("trending", []),
   ("vintage", ["Vintage", "Pre-Loved", "Thrift"]),
   ("streetwear", ["Streetwear", "Hype", "Urban"]),
   ("sustainable", ["Thrift", "Pre-Loved", "Sustainable"]),
   ("designer", ["Luxury Thrift", "Premium", "Designer"]),
   ("budget", ["Budget", "Cheapest", "Wholesale"]),
   ("denim", ["Denim", "Jeans"]),
   ("winter", ["Winter Wear", "Winter", "Jackets"])]

/-- `categoryTagMap[category] || []`. -/
def categoryTags (c : String) : List String :=
  (categoryTagMap.lookup c).getD []

/-- `GET /explore/category/:category`: "trending" or an empty tag mapping
falls back to the popularity query (review count desc, rating desc, limit
12); otherwise active shops with a mapped tag, rating descending, limit 12. -/
def getCategoryShops (catalog : List Shop) (c : String) : List Shop :=
  let tags := categoryTags c
  if c = "trending" || tags.isEmpty then
    ((catalog.filter (fun s => s.isActive)).insertionSort trendLE).take 12
  else
    ((catalog.filter (fun s => s.isActive && decide (s.tag ∈ tags))).insertionSort
      catRatingLE).take 12

/-! ### User registration (`POST /auth/register`) -/

/-- The registration payload as far as preferences are concerned. -/
structure RegisterInput where
  email : String
  name : String
  onboardingAnswers : Option OnboardingAnswers

/-- `User.create` during registration: onboarding answers (when given) are
parsed into a partial preference object, `{}` otherwise, and the mongoose
schema defaults fill every unset path — `preferences` is always populated. -/
def registerUser (input : RegisterInput) : StoredUser :=
  { email := input.email
    name := input.name
    preferences := some (applyPreferenceDefaults
      (match input.onboardingAnswers with
       | some a => parseOnboardingAnswers a
       | none => {}))
    onboardingCompleted := input.onboardingAnswers.isSome }

/-! ### Concrete fixtures -/

/-- A single active shop. -/
def soloShop : Shop :=
  { id := 1, name := "Solo Thrift", tag := "Vintage", locationId := "indiranagar"
    rating := 4, reviewCount := 10, createdAt := 1, isActive := true }

/-- A repository holding exactly one active shop, no users, no failures. -/
def soloRepo : Repo :=
  { catalog := [soloShop]
    users := fun _ => none
    sample := takeSampler
    fails := fun _ => false }

/-- Five active shops, all tagged "Budget" (the catalog of the spec's
backfill sample scenario). -/
def budgetCatalog : List Shop :=
  [{ id := 1, name := "B1", tag := "Budget", locationId := "jayanagar"
     rating := 4, reviewCount := 40, createdAt := 1, isActive := true },
   { id := 2, name := "B2", tag := "Budget", locationId := "jayanagar"
     rating := 3, reviewCount := 30, createdAt := 2, isActive := true },
   { id := 3, name := "B3", tag := "Budget", locationId := "koramangala"
     rating := 5, reviewCount := 20, createdAt := 3, isActive := true },
   { id := 4, name := "B4", tag := "Budget", locationId := "koramangala"
     rating := 2, reviewCount := 10, createdAt := 4, isActive := true },
   { id := 5, name := "B5", tag := "Budget", locationId := "majestic"
     rating := 1, reviewCount := 5, createdAt := 5, isActive := true }]

/-- A user whose only profile content is the style vibe "vintage". -/
def vintageUser : StoredUser :=
  { email := "v@example.com", name := "V"
    preferences := some { defaultPreferences with style := ["vintage"] }
    onboardingCompleted := true }

/-- The backfill scenario repository: all-"Budget" catalog, one "vintage"
user (id 1), no failures. -/
def budgetRepo : Repo :=
  { catalog := budgetCatalog
    users := fun u => if u = 1 then some vintageUser else none
    sample := takeSampler
    fails := fun _ => false }

/-- A user who skipped onboarding: stored preferences are the schema
defaults (no style vibes, no favorite locations). -/
def defaultUser : StoredUser :=
  { email := "d@example.com", name := "D"
    preferences := some defaultPreferences
    onboardingCompleted := false }

/-- Two active shops whose catalog order is the reverse of their rating
order, plus the default-profile user (id 1); no failures. -/
def emptyProfileRepo : Repo :=
  { catalog :=
      [{ id := 1, name := "LowRated", tag := "Denim", locationId := "majestic"
         rating := 1, reviewCount := 3, createdAt := 1, isActive := true },
       { id := 2, name := "HighRated", tag := "Denim", locationId := "majestic"
         rating := 5, reviewCount := 9, createdAt := 2, isActive := true }]
    users := fun u => if u = 1 then some defaultUser else none
    sample := takeSampler
    fails := fun _ => false }

/-- `soloRepo` with the recency read (the last read of `/sections`)
rejecting. -/
def failNewRepo : Repo :=
  { soloRepo with fails := fun op => decide (op = RepoOp.newOp) }

/-! ### Claim C9 — trending order, tie-breaking, stability, truncation -/

/-- Two equal-key trending shops (same review count, same rating) in
catalog order, behind a more-reviewed shop. -/
def trendCatalog : List Shop :=
  [{ id := 9, name := "Busy", tag := "Denim", locationId := "majestic"
     rating := 3, reviewCount := 50, createdAt := 9, isActive := true },
   { id := 1, name := "TieFirst", tag := "Denim", locationId := "majestic"
     rating := 4, reviewCount := 20, createdAt := 1, isActive := true },
   { id := 2, name := "TieSecond", tag := "Denim", locationId := "majestic"
     rating := 4, reviewCount := 20, createdAt := 2, isActive := true }]

/-- A registration payload with no onboarding answers. -/
def noOnboardingInput : RegisterInput :=
  { email := "n@example.com", name := "N", onboardingAnswers := none }

/-- A repository whose every user id resolves to the onboarding-skipping
registered user. -/
def skippedOnboardingRepo : Repo :=
  { catalog := budgetCatalog
    users := fun _ => some (registerUser noOnboardingInput)
    sample := takeSampler
    fails := fun _ => false }

/-- A seven-shop all-active catalog. -/
def wideCatalog : List Shop :=
  [{ id := 1, name := "W1", tag := "Denim", locationId := "majestic"
     rating := 4, reviewCount := 40, createdAt := 1, isActive := true },
   { id := 2, name := "W2", tag := "Vintage", locationId := "majestic"
     rating := 3, reviewCount := 30, createdAt := 2, isActive := true },
   { id := 3, name := "W3", tag := "Budget", locationId := "jayanagar"
     rating := 5, reviewCount := 20, createdAt := 3, isActive := true },
   { id := 4, name := "W4", tag := "Hype", locationId := "jayanagar"
     rating := 2, reviewCount := 10, createdAt := 4, isActive := true },
   { id := 5, name := "W5", tag := "Thrift", locationId := "koramangala"
     rating := 1, reviewCount := 5, createdAt := 5, isActive := true },
   { id := 6, name := "W6", tag := "Premium", locationId := "koramangala"
     rating := 4, reviewCount := 50, createdAt := 6, isActive := true },
   { id := 7, name := "W7", tag := "Urban", locationId := "indiranagar"
     rating := 3, reviewCount := 60, createdAt := 7, isActive := true }]

/-- Repository over the seven-shop catalog with a default-profile user. -/
def wideRepo : Repo :=
  { catalog := wideCatalog
    users := fun _ => some defaultUser
    sample := takeSampler
    fails := fun _ => false }

/-- The "vintage"-only preference profile of the backfill scenario. -/
def vintagePrefs : Preferences :=
  { defaultPreferences with style := ["vintage"] }

/-- Claim C6: the Preference Profile Builder maps absent keys to the
documented defaults (budget `{0, 5000, "INR"}`, sustainability and vintage
`3`, brand preference `"no-preference"`), derives budget from the fixed
four-bracket lookup when the bracket key is recognized, and treats an
unrecognized bracket key exactly as an absent budget answer. -/
theorem preference_builder_defaults :
    (∀ a : OnboardingAnswers, a.budget = none →
      (buildPreferenceProfile a).budget = { min := 0, max := 5000, currency := "INR" })
  ∧ (∀ a : OnboardingAnswers, a.sustainability = none →
      (buildPreferenceProfile a).sustainabilityImportance = 3)
  ∧ (∀ a : OnboardingAnswers, a.vintagePreference = none →
      (buildPreferenceProfile a).vintagePreference = 3)
  ∧ (∀ a : OnboardingAnswers, a.brandPreference = none →
      (buildPreferenceProfile a).brandPreference = "no-preference")
  ∧ (∀ (a : OnboardingAnswers) (b : String) (mn mx : Nat),
      a.budget = some b → budgetBracketMap b = some (mn, mx) →
      (buildPreferenceProfile a).budget = { min := mn, max := mx, currency := "INR" })
  ∧ (∀ (a : OnboardingAnswers) (b : String), budgetBracketMap b = none →
      buildPreferenceProfile { a with budget := some b } =
        buildPreferenceProfile { a with budget := none })
  ∧ buildPreferenceProfile {} = defaultPreferences := by
  refine ⟨?_, ?_, ?_, ?_, ?_, ?_, ?_⟩
  · intro a h
    simp [buildPreferenceProfile, parseOnboardingAnswers, applyPreferenceDefaults, h]
  · intro a h
    simp [buildPreferenceProfile, parseOnboardingAnswers, applyPreferenceDefaults, h]
  · intro a h
    simp [buildPreferenceProfile, parseOnboardingAnswers, applyPreferenceDefaults, h]
  · intro a h
    simp [buildPreferenceProfile, parseOnboardingAnswers, applyPreferenceDefaults, h]
  · intro a b mn mx hb hm
    simp [buildPreferenceProfile, parseOnboardingAnswers, applyPreferenceDefaults, hb, hm]
  · intro a b h
    simp [buildPreferenceProfile, parseOnboardingAnswers, applyPreferenceDefaults, h]
  · rfl

/-- Witness for C6: concrete instantiations of the hypothesised parts of
`preference_builder_defaults`. -/
theorem preference_builder_defaults_witness :
    (buildPreferenceProfile { sustainability := some 5 }).budget
        = { min := 0, max := 5000, currency := "INR" }
  ∧ (buildPreferenceProfile { budget := some "budget-high" }).budget
        = { min := 1500, max := 3000, currency := "INR" }
  ∧ buildPreferenceProfile { style := some ["y2k"], budget := some "mystery" } =
      buildPreferenceProfile { style := some ["y2k"], budget := none } :=
  ⟨preference_builder_defaults.1 { sustainability := some 5 } rfl,
   preference_builder_defaults.2.2.2.2.1 { budget := some "budget-high" }
     "budget-high" 1500 3000 rfl rfl,
   preference_builder_defaults.2.2.2.2.2.1 { style := some ["y2k"] } "mystery" rfl⟩

theorem takeSampler_spec : SampleSpec takeSampler :=
  ⟨fun k pool => List.take_sublist k pool,
   fun k pool => List.length_take k pool⟩

/-! ### Claim C1 — cross-section deduplication -/

/-- Counterexample to claim C1: the composer keeps no running set of placed
identifiers — with a one-shop catalog, the same shop identifier appears in
both the Trending and the Recently Added sections of one `/sections`
response. -/
theorem sections_cross_dedup_counterexample :
    ∃ s1 ∈ (getSections soloRepo none).data, ∃ s2 ∈ (getSections soloRepo none).data,
      s1.type ≠ s2.type ∧
        ∃ i1 ∈ s1.items, ∃ i2 ∈ s2.items, i1.shop.id = i2.shop.id := by
  decide

/-! ### Helper lemmas for the failure-free path -/

theorem read_ok {α : Type _} (r : Repo) (op : RepoOp) (v : α) (h : noFails r) :
    r.read op v = .ok v := by
  simp [Repo.read, h op]

theorem getPersonalizedShopsE_ok (r : Repo) (p : Preferences) (h : noFails r) :
    getPersonalizedShopsE r p = .ok (getPersonalizedShops r.sample r.catalog p) := by
  simp only [getPersonalizedShopsE, read_ok r _ _ h, getPersonalizedShops]
  split <;> rfl

/-- On the failure-free path, `/sections` returns 200 with the For You
section (exactly when the caller is authenticated, found, and has a
preferences subdocument) followed by Trending and Recently Added. -/
theorem getSections_noFails (r : Repo) (uid : Option Nat) (h : noFails r) :
    getSections r uid =
      { status := 200, success := true, error := none
        data :=
          (match uid with
           | none => []
           | some u =>
             match r.users u with
             | none => []
             | some user =>
               match user.preferences with
               | none => []
               | some prefs =>
                 [forYouSection (getPersonalizedShops r.sample r.catalog prefs)])
          ++ [trendingSection (trendingShops r.catalog 6),
              newSection (newShops r.catalog 6)] } := by
  cases uid with
  | none =>
    simp [getSections, sectionsCore, forYouSectionsE, read_ok r _ _ h]
  | some u =>
    cases hu : r.users u with
    | none =>
      simp [getSections, sectionsCore, forYouSectionsE, read_ok r _ _ h, hu]
    | some user =>
      cases hp : user.preferences with
      | none =>
        simp [getSections, sectionsCore, forYouSectionsE, read_ok r _ _ h, hu, hp]
      | some prefs =>
        simp [getSections, sectionsCore, forYouSectionsE, read_ok r _ _ h, hu, hp,
          getPersonalizedShopsE_ok r _ h]

/-- On the failure-free path, the authenticated `/for-you` wraps every shop
returned by `getPersonalizedShops` — matched or backfilled — with the same
reason, score 0.85 and basis `style`. -/
theorem getForYou_auth_noFails (r : Repo) (u : Nat) (user : StoredUser)
    (prefs : Preferences) (h : noFails r) (hu : r.users u = some user)
    (hp : user.preferences = some prefs) :
    getForYou r (some u) =
      { status := 200, success := true, error := none
        data := some
          { title := "For You"
            subtitle := "Based on your style preferences"
            type := "for-you"
            items := (getPersonalizedShops r.sample r.catalog prefs).map (fun shop =>
              { shop := shop
                reason := "Matches your " ++ firstStyleOr prefs.style ++ " vibe"
                matchScore := 0.85, basedOn := RecBasis.style }) } } := by
  simp only [getForYou, read_ok r _ _ h, hu, hp, getPersonalizedShopsE_ok r _ h]

/-! ### Claim C4 — fixed section order and the first slot -/

/-- Counterexample to claim C4: an anonymous `/sections` response has no
first-slot section at all — only Trending and Recently Added come back; the
anonymous "Recommended For You" section is not part of `/sections`. -/
theorem sections_anonymous_counterexample :
    (getSections soloRepo none).data.map RecSection.type = ["trending", "new"]
  ∧ ∀ s ∈ (getSections soloRepo none).data, s.type ≠ "for-you" := by
  decide

/-- Amended claim C4: `/sections` returns sections in the fixed order
{For You, Trending, Recently Added}, where the For You slot is present
exactly when a caller identity is given, the user record is found, and its
preferences subdocument is present; anonymous (or user-not-found) responses
contain only Trending and Recently Added — no anonymous first-slot section
is substituted. -/
theorem sections_fixed_order (r : Repo) (uid : Option Nat) (h : noFails r) :
    (getSections r uid).data.map RecSection.type =
      match uid with
      | none => ["trending", "new"]
      | some u =>
        match r.users u with
        | none => ["trending", "new"]
        | some user =>
          match user.preferences with
          | none => ["trending", "new"]
          | some _ => ["for-you", "trending", "new"] := by
  rw [getSections_noFails r uid h]
  cases uid with
  | none => rfl
  | some u =>
    cases hu : r.users u with
    | none => simp [hu, trendingSection, newSection]
    | some user =>
      cases hp : user.preferences with
      | none => simp [hu, hp, trendingSection, newSection]
      | some prefs =>
        simp [hu, hp, forYouSection, trendingSection, newSection]

/-- Witness for the amended C4 at a concrete repository: an authenticated
caller with a stored profile gets the full fixed order. -/
theorem sections_fixed_order_witness :
    (getSections budgetRepo (some 1)).data.map RecSection.type =
      ["for-you", "trending", "new"] :=
  sections_fixed_order budgetRepo (some 1) (fun _ => rfl)

/-! ### Identifier distinctness within a single section -/

theorem sortedTake_nodup_ids (r : Shop → Shop → Prop) [DecidableRel r]
    (p : Shop → Bool) (catalog : List Shop) (n : Nat)
    (h : (catalog.map Shop.id).Nodup) :
    ((((catalog.filter p).insertionSort r).take n).map Shop.id).Nodup := by
  have h1 : ((catalog.filter p).map Shop.id).Nodup :=
    List.Nodup.sublist ((catalog.filter_sublist).map Shop.id) h
  have h2 : (((catalog.filter p).insertionSort r).map Shop.id).Nodup :=
    (((List.perm_insertionSort r (catalog.filter p)).map Shop.id).symm).nodup h1
  exact List.Nodup.sublist ((List.take_sublist n _).map Shop.id) h2

theorem personalizedQuery_nodup_ids (catalog : List Shop) (p : Preferences)
    (h : (catalog.map Shop.id).Nodup) :
    ((personalizedQuery catalog p).map Shop.id).Nodup :=
  sortedTake_nodup_ids ratingLE (personalizedFilter p) catalog 12 h

theorem getPersonalizedShops_nodup_ids (sample : Nat → List Shop → List Shop)
    (catalog : List Shop) (p : Preferences) (hs : SampleSpec sample)
    (h : (catalog.map Shop.id).Nodup) :
    ((getPersonalizedShops sample catalog p).map Shop.id).Nodup := by
  unfold getPersonalizedShops
  by_cases hlen : (personalizedQuery catalog p).length < 6
  · simp only [hlen, if_true, List.map_append]
    have hq : ((personalizedQuery catalog p).map Shop.id).Nodup :=
      personalizedQuery_nodup_ids catalog p h
    have hExtra := hs.sublist (6 - (personalizedQuery catalog p).length)
      (activeSamplePool catalog ((personalizedQuery catalog p).map Shop.id))
    have hPoolSub : activeSamplePool catalog ((personalizedQuery catalog p).map Shop.id)
        <+ catalog := List.filter_sublist catalog
    have hExtraNodup :
        ((sample (6 - (personalizedQuery catalog p).length)
          (activeSamplePool catalog ((personalizedQuery catalog p).map Shop.id))).map
            Shop.id).Nodup :=
      List.Nodup.sublist ((hExtra.trans hPoolSub).map Shop.id) h
    refine hq.append hExtraNodup ?_
    intro a haq haExtra
    obtain ⟨x, hxMem, hxId⟩ := List.mem_map.mp haExtra
    have hxPool := hExtra.subset hxMem
    have := (List.mem_filter.mp hxPool).2
    simp only [Bool.and_eq_true, decide_eq_true_eq] at this
    exact this.2 (hxId ▸ haq)
  · simp only [hlen, if_false]
    exact personalizedQuery_nodup_ids catalog p h

theorem forYouSection_item_ids (shops : List Shop) :
    (forYouSection shops).items.map (fun it => it.shop.id) = shops.map Shop.id := by
  simp only [forYouSection, List.map_map]
  rfl

theorem trendingSection_item_ids (shops : List Shop) :
    (trendingSection shops).items.map (fun it => it.shop.id) = shops.map Shop.id := by
  simp only [trendingSection, List.map_map]
  rfl

theorem newSection_item_ids (shops : List Shop) :
    (newSection shops).items.map (fun it => it.shop.id) = shops.map Shop.id := by
  simp only [newSection, List.map_map]
  rfl

/-! ### Claim C1 — amended statement -/

/-- Amended claim C1: the `/sections` composer performs no cross-section
deduplication, so a shop identifier may appear in more than one section of
one response (see `sections_cross_dedup_counterexample`); what does hold is
that within each single returned section the shop identifiers are distinct,
provided the catalog identifiers are distinct. -/
theorem sections_per_section_nodup (r : Repo) (uid : Option Nat)
    (hs : SampleSpec r.sample) (hn : (r.catalog.map Shop.id).Nodup)
    (hf : noFails r) :
    ∀ s ∈ (getSections r uid).data, (s.items.map (fun it => it.shop.id)).Nodup := by
  rw [getSections_noFails r uid hf]
  intro s hsMem
  simp only [List.mem_append, List.mem_cons, List.not_mem_nil, or_false] at hsMem
  have hTrending : (trendingSection (trendingShops r.catalog 6)).items.map
      (fun it => it.shop.id) |>.Nodup := by
    rw [trendingSection_item_ids]
    exact sortedTake_nodup_ids trendLE (fun s => s.isActive) r.catalog 6 hn
  have hNew : (newSection (newShops r.catalog 6)).items.map
      (fun it => it.shop.id) |>.Nodup := by
    rw [newSection_item_ids]
    exact sortedTake_nodup_ids createdLE (fun s => s.isActive) r.catalog 6 hn
  rcases hsMem with hFy | hTr | hNw
  · cases uid with
    | none => simp at hFy
    | some u =>
      have hFy2 : s ∈ (match r.users u with
          | none => ([] : List RecSection)
          | some user =>
            match user.preferences with
            | none => []
            | some prefs =>
              [forYouSection (getPersonalizedShops r.sample r.catalog prefs)]) := hFy
      rcases hu : r.users u with _ | user
      · rw [hu] at hFy2
        simp at hFy2
      · rw [hu] at hFy2
        have hFy3 : s ∈ (match user.preferences with
            | none => ([] : List RecSection)
            | some prefs =>
              [forYouSection (getPersonalizedShops r.sample r.catalog prefs)]) := hFy2
        rcases hp : user.preferences with _ | prefs
        · rw [hp] at hFy3
          simp at hFy3
        · rw [hp] at hFy3
          simp only [List.mem_singleton] at hFy3
          subst hFy3
          rw [forYouSection_item_ids]
          exact getPersonalizedShops_nodup_ids r.sample r.catalog prefs hs hn
  · subst hTr; exact hTrending
  · subst hNw; exact hNew

/-- Witness for the amended C1 at a concrete repository: the For You section
of the backfill scenario (the first section of the response) has distinct
shop identifiers. -/
theorem sections_per_section_nodup_witness :
    ((forYouSection (getPersonalizedShops budgetRepo.sample budgetRepo.catalog
      vintagePrefs)).items.map (fun it => it.shop.id)).Nodup :=
  sections_per_section_nodup budgetRepo (some 1) takeSampler_spec
    (by decide) (fun _ => rfl)
    (forYouSection (getPersonalizedShops budgetRepo.sample budgetRepo.catalog
      vintagePrefs))
    (List.Mem.head _)

/-! ### Claim C2 — tagging of backfilled For-You items -/

/-- Counterexample to claim C2 (the spec's own backfill sample scenario):
catalog of 5 active shops all tagged "Budget", profile style "vintage" with
no tag matches — the personalized query is empty, so all five returned shops
are backfilled, yet the authenticated `/for-you` handler wraps them with
`matchScore 0.85`, `basedOn = style` and the style-match reason, not with
"Popular in your area" and 0.7. -/
theorem forYou_backfill_tagging_counterexample :
    personalizedQuery budgetRepo.catalog
        { defaultPreferences with style := ["vintage"] } = []
  ∧ (getForYou budgetRepo (some 1)).data.map (fun sec =>
        sec.items.map (fun it => (it.shop.id, it.reason, it.matchScore, it.basedOn)))
      = some [(1, "Matches your vintage vibe", 0.85, RecBasis.style),
              (2, "Matches your vintage vibe", 0.85, RecBasis.style),
              (3, "Matches your vintage vibe", 0.85, RecBasis.style),
              (4, "Matches your vintage vibe", 0.85, RecBasis.style),
              (5, "Matches your vintage vibe", 0.85, RecBasis.style)] :=
  ⟨rfl, rfl⟩

/-- Amended claim C2: the authenticated `/for-you` handler does not
distinguish backfilled shops — every item it returns (genuine match or
backfill) carries `matchScore 0.85`, `basedOn = style` and the style-vibe
reason; the "Popular in your area" / `0.7` / `trending` tagging is used only
on the anonymous path. -/
theorem forYou_uniform_item_tagging (r : Repo) (u : Nat) (user : StoredUser)
    (prefs : Preferences) (hf : noFails r) (hu : r.users u = some user)
    (hp : user.preferences = some prefs) :
    (∃ sec, (getForYou r (some u)).data = some sec ∧
      ∀ it ∈ sec.items, it.matchScore = 0.85 ∧ it.basedOn = RecBasis.style ∧
        it.reason = "Matches your " ++ firstStyleOr prefs.style ++ " vibe")
  ∧ (∃ sec, (getForYou r none).data = some sec ∧
      ∀ it ∈ sec.items, it.matchScore = 0.7 ∧ it.basedOn = RecBasis.trending ∧
        it.reason = "Popular in your area") := by
  constructor
  · rw [getForYou_auth_noFails r u user prefs hf hu hp]
    refine ⟨_, rfl, ?_⟩
    intro it hit
    simp only [List.mem_map] at hit
    obtain ⟨shop, _, hEq⟩ := hit
    subst hEq
    exact ⟨rfl, rfl, rfl⟩
  · simp only [getForYou, read_ok r _ _ hf]
    refine ⟨_, rfl, ?_⟩
    intro it hit
    simp only [List.mem_map] at hit
    obtain ⟨shop, _, hEq⟩ := hit
    subst hEq
    exact ⟨rfl, rfl, rfl⟩

/-- Witness for the amended C2 at the concrete backfill scenario. -/
theorem forYou_uniform_item_tagging_witness :
    (∃ sec, (getForYou budgetRepo (some 1)).data = some sec ∧
      ∀ it ∈ sec.items, it.matchScore = 0.85 ∧ it.basedOn = RecBasis.style ∧
        it.reason = "Matches your " ++
          firstStyleOr ({ defaultPreferences with style := ["vintage"] } :
            Preferences).style ++ " vibe")
  ∧ (∃ sec, (getForYou budgetRepo none).data = some sec ∧
      ∀ it ∈ sec.items, it.matchScore = 0.7 ∧ it.basedOn = RecBasis.trending ∧
        it.reason = "Popular in your area") :=
  forYou_uniform_item_tagging budgetRepo 1 vintageUser
    { defaultPreferences with style := ["vintage"] } (fun _ => rfl) rfl rfl

/-! ### Claim C3 — empty profile versus the anonymous path -/

/-- Counterexample to claim C3: with a profile having no style vibes and no
favorite locations, the authenticated For-You result is the rating-sorted
active catalog tagged `basedOn = style` with a style reason — not the
anonymous random sample tagged "Popular in your area" / `trending` (shown
side by side on the same repository: even the shop order differs). -/
theorem forYou_empty_profile_counterexample :
    defaultUser.preferences = some defaultPreferences
  ∧ defaultPreferences.style = []
  ∧ defaultPreferences.favoriteLocations = []
  ∧ (getForYou emptyProfileRepo (some 1)).data.map (fun sec =>
        sec.items.map (fun it => (it.shop.id, it.reason, it.matchScore, it.basedOn)))
      = some [(2, "Matches your style vibe", 0.85, RecBasis.style),
              (1, "Matches your style vibe", 0.85, RecBasis.style)]
  ∧ (getForYou emptyProfileRepo none).data.map (fun sec =>
        sec.items.map (fun it => (it.shop.id, it.reason, it.matchScore, it.basedOn)))
      = some [(1, "Popular in your area", 0.7, RecBasis.trending),
              (2, "Popular in your area", 0.7, RecBasis.trending)] :=
  ⟨rfl, rfl, rfl, rfl, rfl⟩

/-- Amended claim C3: an empty profile (no style vibes, no favorite
locations) does skip both catalog restrictions, but the authenticated
For-You path then returns the top 12 active shops by rating descending then
review count descending (plus backfill below 6) — not a random sample — and
tags every item `basedOn = style`, score 0.85, reason
"Matches your style vibe". -/
theorem forYou_empty_profile_rating_sorted (r : Repo) (u : Nat)
    (user : StoredUser) (prefs : Preferences) (hf : noFails r)
    (hu : r.users u = some user) (hp : user.preferences = some prefs)
    (h1 : prefs.style = []) (h2 : prefs.favoriteLocations = []) :
    personalizedQuery r.catalog prefs =
      ((r.catalog.filter (fun s => s.isActive)).insertionSort ratingLE).take 12
  ∧ (getForYou r (some u)).data = some
      { title := "For You"
        subtitle := "Based on your style preferences"
        type := "for-you"
        items := (getPersonalizedShops r.sample r.catalog prefs).map (fun shop =>
          { shop := shop, reason := "Matches your style vibe"
            matchScore := 0.85, basedOn := RecBasis.style }) } := by
  have hstr : "Matches your " ++ firstStyleOr prefs.style ++ " vibe"
      = "Matches your style vibe" := by
    rw [h1]; rfl
  constructor
  · unfold personalizedQuery
    have hfilt : r.catalog.filter (personalizedFilter prefs)
        = r.catalog.filter (fun s => s.isActive) := by
      apply List.filter_congr
      intro s _
      simp [personalizedFilter, h1, h2, preferredTagsOf]
    rw [hfilt]
  · rw [getForYou_auth_noFails r u user prefs hf hu hp]
    simp only [hstr]

/-- Witness for the amended C3 at the concrete repository. -/
theorem forYou_empty_profile_rating_sorted_witness :
    personalizedQuery emptyProfileRepo.catalog defaultPreferences =
      ((emptyProfileRepo.catalog.filter (fun s => s.isActive)).insertionSort
        ratingLE).take 12
  ∧ (getForYou emptyProfileRepo (some 1)).data = some
      { title := "For You"
        subtitle := "Based on your style preferences"
        type := "for-you"
        items := (getPersonalizedShops emptyProfileRepo.sample
            emptyProfileRepo.catalog defaultPreferences).map (fun shop =>
          { shop := shop, reason := "Matches your style vibe"
            matchScore := 0.85, basedOn := RecBasis.style }) } :=
  forYou_empty_profile_rating_sorted emptyProfileRepo 1 defaultUser
    defaultPreferences (fun _ => rfl) rfl rfl rfl rfl

/-! ### Claim C5 — category fallback refines the popularity scorer -/

/-- Claim C5: for the category "trending", for any category whose tag
mapping is empty, and for any category absent from the table (unknown
categories are not errors), `/category/:category` returns exactly what the
popularity query of `/trending` returns, with the same limit 12. -/
theorem category_trending_fallback (catalog : List Shop) (c : String)
    (h : c = "trending" ∨ categoryTags c = [] ∨ (categoryTagMap.lookup c) = none) :
    getCategoryShops catalog c = getTrendingShops catalog := by
  have htags : c = "trending" ∨ categoryTags c = [] := by
    rcases h with h | h | h
    · exact Or.inl h
    · exact Or.inr h
    · exact Or.inr (by simp [categoryTags, h])
  unfold getCategoryShops getTrendingShops
  rcases htags with h | h
  · simp [h]
  · simp [h]

/-- Witness for C5: an unknown category identifier falls back to the
popularity query. -/
theorem category_trending_fallback_witness :
    getCategoryShops budgetCatalog "unknown-category" =
      getTrendingShops budgetCatalog :=
  category_trending_fallback budgetCatalog "unknown-category"
    (Or.inr (Or.inr rfl))

/-! ### Claim C7 — a failed read yields a full 500 with no section data -/

/-- Claim C7: whenever any repository read performed by `/sections` fails —
the user lookup, the personalized query, the backfill sample, the trending
query, or the recency query (even after earlier sections were already
computed) — the whole response is the 500 envelope with `success := false`
and no section data at all. -/
theorem sections_failure_no_partial (r : Repo) (uid : Option Nat)
    (h : r.fails .trendingOp = true ∨ r.fails .newOp = true ∨
      (∃ u, uid = some u ∧ r.fails .findUserOp = true) ∨
      (∃ u user prefs, uid = some u ∧ r.fails .findUserOp = false ∧
        r.users u = some user ∧ user.preferences = some prefs ∧
        (r.fails .personalizedOp = true ∨
          (r.fails .personalizedOp = false ∧
            (personalizedQuery r.catalog prefs).length < 6 ∧
            r.fails .sampleOp = true)))) :
    getSections r uid = sectionsErrorResponse := by
  have hcore : ∃ e, sectionsCore r uid = .error e := by
    rcases h with h | h | ⟨u, huid, h⟩ | ⟨u, user, prefs, huid, hok, hu, hp, h⟩
    · unfold sectionsCore
      cases hfy : forYouSectionsE r uid with
      | error e => exact ⟨e, rfl⟩
      | ok fy =>
        refine ⟨"database error", ?_⟩
        simp [hfy, Repo.read, h]
    · unfold sectionsCore
      cases hfy : forYouSectionsE r uid with
      | error e => exact ⟨e, rfl⟩
      | ok fy =>
        cases htr : r.read .trendingOp (trendingShops r.catalog 6) with
        | error e => exact ⟨e, by simp [hfy, htr]⟩
        | ok tr =>
          refine ⟨"database error", ?_⟩
          simp [hfy, htr, Repo.read, h]
    · subst huid
      refine ⟨"database error", ?_⟩
      unfold sectionsCore forYouSectionsE
      simp [Repo.read, h]
    · subst huid
      refine ⟨"database error", ?_⟩
      unfold sectionsCore forYouSectionsE
      rcases h with h | ⟨hok2, hlen, h⟩
      · simp [Repo.read, hok, hu, hp, getPersonalizedShopsE, h]
      · simp [Repo.read, hok, hu, hp, getPersonalizedShopsE, hok2, hlen, h]
  obtain ⟨e, he⟩ := hcore
  simp [getSections, he]

/-- Witness for C7: the recency read — the last read of the composition —
fails after the earlier sections were computed, and the whole response is
the 500 envelope. -/
theorem sections_failure_no_partial_witness :
    getSections failNewRepo none = sectionsErrorResponse :=
  sections_failure_no_partial failNewRepo none (Or.inr (Or.inl rfl))

/-- Claim C9: in a trending result, higher review count precedes, equal
review counts are broken by higher rating, fully equal keys keep catalog
insertion order (stable sort), and the result is the sorted active catalog
truncated to `n`. -/
theorem trending_sort_spec (catalog : List Shop) (n : Nat) :
    (trendingShops catalog n).Pairwise (fun a b =>
      b.reviewCount < a.reviewCount ∨
        (a.reviewCount = b.reviewCount ∧ b.rating ≤ a.rating))
  ∧ (∀ a b : Shop, a.reviewCount = b.reviewCount → a.rating = b.rating →
      [a, b] <+ catalog.filter (fun s => s.isActive) →
      [a, b] <+ (catalog.filter (fun s => s.isActive)).insertionSort trendLE)
  ∧ (trendingShops catalog n).length
      = min n (catalog.filter (fun s => s.isActive)).length := by
  refine ⟨?_, ?_, ?_⟩
  · have hsorted :
        ((catalog.filter (fun s => s.isActive)).insertionSort trendLE).Pairwise
          trendLE :=
      List.sorted_insertionSort trendLE _
    exact List.Pairwise.sublist (List.take_sublist n _) hsorted
  · intro a b h1 h2 hsub
    exact List.pair_sublist_insertionSort (Or.inr ⟨h1, le_of_eq h2.symm⟩) hsub
  · unfold trendingShops
    rw [List.length_take, (List.perm_insertionSort trendLE _).length_eq]

/-- Witness for C9: on the concrete three-shop catalog, the stability part
applies to the two equal-key shops and keeps their catalog order. -/
theorem trending_sort_spec_witness :
    [trendCatalog.get ⟨1, by decide⟩, trendCatalog.get ⟨2, by decide⟩] <+
      (trendCatalog.filter (fun s => s.isActive)).insertionSort trendLE :=
  (trending_sort_spec trendCatalog 6).2.1
    (trendCatalog.get ⟨1, by decide⟩) (trendCatalog.get ⟨2, by decide⟩)
    rfl rfl (by decide)

/-! ### Claim C10 — preferences are always populated, For You always present -/

/-- Claim C10: every user record persisted through registration has a
populated preferences subdocument (the schema default, even when no
onboarding answers were supplied), so for every authenticated `/sections`
request that finds such a user the `user?.preferences` gate passes and a
For You section is always the first section — including for users who
skipped onboarding. -/
theorem registered_user_always_has_profile :
    (∀ input : RegisterInput, (registerUser input).preferences ≠ none)
  ∧ (∀ input : RegisterInput, input.onboardingAnswers = none →
      (registerUser input).preferences = some defaultPreferences)
  ∧ (∀ (r : Repo) (u : Nat) (input : RegisterInput), noFails r →
      r.users u = some (registerUser input) →
      ∃ s rest, (getSections r (some u)).data = s :: rest ∧
        s.type = "for-you" ∧ s.title = "For You") := by
  refine ⟨?_, ?_, ?_⟩
  · intro input
    simp [registerUser]
  · intro input h
    simp [registerUser, h]
    rfl
  · intro r u input hf hu
    rw [getSections_noFails r (some u) hf]
    simp only [hu]
    exact ⟨forYouSection (getPersonalizedShops r.sample r.catalog
      (applyPreferenceDefaults
        (match input.onboardingAnswers with
         | some a => parseOnboardingAnswers a
         | none => {}))),
      [trendingSection (trendingShops r.catalog 6), newSection (newShops r.catalog 6)],
      rfl, rfl, rfl⟩

/-- Witness for C10: a registration without onboarding answers, stored as
user 1, still yields a leading For You section. -/
theorem registered_user_always_has_profile_witness :
    (registerUser noOnboardingInput).preferences = some defaultPreferences
  ∧ ∃ s rest,
      (getSections skippedOnboardingRepo (some 1)).data = s :: rest ∧
        s.type = "for-you" ∧ s.title = "For You" :=
  ⟨registered_user_always_has_profile.2.1 noOnboardingInput rfl,
   registered_user_always_has_profile.2.2 skippedOnboardingRepo 1
      noOnboardingInput (fun _ => rfl) rfl⟩

/-! ### Counting lemmas for the backfill guarantee -/

theorem length_filter_split {α : Type _} (l : List α) (q : α → Bool) :
    l.length = (l.filter q).length + (l.filter (fun a => !q a)).length := by
  induction l with
  | nil => rfl
  | cons x xs ih =>
    cases hq : q x <;> simp [List.filter_cons, hq, ih] <;> omega

theorem active_length_le_pool (catalog : List Shop) (ids : List Nat)
    (hn : (catalog.map Shop.id).Nodup) :
    (catalog.filter (fun s => s.isActive)).length
      ≤ (activeSamplePool catalog ids).length + ids.length := by
  classical
  have hsplit :
      (catalog.filter (fun s => s.isActive)).length
        = ((catalog.filter (fun s => s.isActive)).filter
            (fun s => decide (s.id ∉ ids))).length
          + ((catalog.filter (fun s => s.isActive)).filter
              (fun s => decide (s.id ∈ ids))).length := by
    rw [length_filter_split (catalog.filter (fun s => s.isActive))
      (fun s => decide (s.id ∉ ids))]
    congr 1
    apply congrArg
    apply List.filter_congr
    intro x _
    simp [decide_not]
  have hpool :
      ((catalog.filter (fun s => s.isActive)).filter
          (fun s => decide (s.id ∉ ids)))
        = activeSamplePool catalog ids := by
    rw [List.filter_filter, activeSamplePool]
    apply List.filter_congr
    intro x _
    rw [Bool.and_comm]
  have hbound :
      ((catalog.filter (fun s => s.isActive)).filter
          (fun s => decide (s.id ∈ ids))).length ≤ ids.length := by
    have hsub : ((catalog.filter (fun s => s.isActive)).filter
        (fun s => decide (s.id ∈ ids))) <+ catalog :=
      (List.filter_sublist _).trans (List.filter_sublist _)
    have hnodup : (((catalog.filter (fun s => s.isActive)).filter
        (fun s => decide (s.id ∈ ids))).map Shop.id).Nodup :=
      List.Nodup.sublist (hsub.map Shop.id) hn
    have hsubset : (((catalog.filter (fun s => s.isActive)).filter
        (fun s => decide (s.id ∈ ids))).map Shop.id) ⊆ ids := by
      intro a ha
      obtain ⟨x, hxmem, hxeq⟩ := List.mem_map.mp ha
      have hx := (List.mem_filter.mp hxmem).2
      simp only [decide_eq_true_eq] at hx
      exact hxeq ▸ hx
    calc ((catalog.filter (fun s => s.isActive)).filter
            (fun s => decide (s.id ∈ ids))).length
        = (((catalog.filter (fun s => s.isActive)).filter
            (fun s => decide (s.id ∈ ids))).map Shop.id).length := by
          rw [List.length_map]
      _ ≤ ids.length := (List.subperm_of_subset hnodup hsubset).length_le
  rw [hsplit, hpool] at *
  omega

theorem getPersonalizedShops_min_length (sample : Nat → List Shop → List Shop)
    (catalog : List Shop) (p : Preferences) (hs : SampleSpec sample)
    (hn : (catalog.map Shop.id).Nodup)
    (hA : 6 ≤ (catalog.filter (fun s => s.isActive)).length) :
    6 ≤ (getPersonalizedShops sample catalog p).length := by
  unfold getPersonalizedShops
  by_cases hlen : (personalizedQuery catalog p).length < 6
  · simp only [hlen, if_true, List.length_append]
    rw [hs.sampleLength]
    have h1 := active_length_le_pool catalog
      ((personalizedQuery catalog p).map Shop.id) hn
    rw [List.length_map] at h1
    omega
  · simp only [hlen, if_false]
    omega

theorem getPersonalizedShops_exhausts (sample : Nat → List Shop → List Shop)
    (catalog : List Shop) (p : Preferences) (hs : SampleSpec sample)
    (hres : (getPersonalizedShops sample catalog p).length < 6) :
    ∀ s ∈ catalog, s.isActive = true →
      s.id ∈ (getPersonalizedShops sample catalog p).map Shop.id := by
  intro s hsmem hsact
  unfold getPersonalizedShops at hres ⊢
  by_cases hlen : (personalizedQuery catalog p).length < 6
  · simp only [hlen, if_true] at hres ⊢
    have hexlen := hs.sampleLength (6 - (personalizedQuery catalog p).length)
      (activeSamplePool catalog ((personalizedQuery catalog p).map Shop.id))
    rw [List.length_append] at hres
    have hexeq : sample (6 - (personalizedQuery catalog p).length)
        (activeSamplePool catalog ((personalizedQuery catalog p).map Shop.id))
        = activeSamplePool catalog ((personalizedQuery catalog p).map Shop.id) := by
      apply (hs.sublist _ _).eq_of_length
      omega
    by_cases hid : s.id ∈ (personalizedQuery catalog p).map Shop.id
    · rw [List.map_append]
      exact List.mem_append_left _ hid
    · have hspool : s ∈ activeSamplePool catalog
          ((personalizedQuery catalog p).map Shop.id) :=
        List.mem_filter.mpr ⟨hsmem, by simp [hsact, hid]⟩
      rw [List.map_append]
      exact List.mem_append_right _
        (List.mem_map_of_mem Shop.id (hexeq.symm ▸ hspool))
  · rw [if_neg hlen] at hres
    exact absurd hres hlen

/-! ### Claim C8 — minimum section size and backfill behavior -/

/-- Claim C8: the Content-Match Scorer backfills a shortfall with a sample
of size `6 − count` drawn from the active catalog excluding the
already-selected identifiers; it returns at least 6 shops whenever the
active catalog holds at least 6, it returns fewer than 6 only when the
active catalog is exhausted (every active shop is already in the result),
and under no failure every `/sections` section holds at least 6 items when
the active catalog holds at least 6. -/
theorem backfill_min_section_size (r : Repo) (p : Preferences)
    (hs : SampleSpec r.sample) (hn : (r.catalog.map Shop.id).Nodup) :
    (6 ≤ (r.catalog.filter (fun s => s.isActive)).length →
      6 ≤ (getPersonalizedShops r.sample r.catalog p).length)
  ∧ ((personalizedQuery r.catalog p).length < 6 →
      getPersonalizedShops r.sample r.catalog p
        = personalizedQuery r.catalog p
          ++ r.sample (6 - (personalizedQuery r.catalog p).length)
              (activeSamplePool r.catalog
                ((personalizedQuery r.catalog p).map Shop.id)))
  ∧ ((getPersonalizedShops r.sample r.catalog p).length < 6 →
      ∀ s ∈ r.catalog, s.isActive = true →
        s.id ∈ (getPersonalizedShops r.sample r.catalog p).map Shop.id)
  ∧ (6 ≤ (r.catalog.filter (fun s => s.isActive)).length →
      ∀ uid : Option Nat, noFails r →
        ∀ sec ∈ (getSections r uid).data, 6 ≤ sec.items.length) := by
  refine ⟨?_, ?_, ?_, ?_⟩
  · exact getPersonalizedShops_min_length r.sample r.catalog p hs hn
  · intro h
    simp only [getPersonalizedShops, h, if_true]
  · exact getPersonalizedShops_exhausts r.sample r.catalog p hs
  · intro hA uid hf sec hsec
    have hTr : (trendingShops r.catalog 6).length
        = min 6 (r.catalog.filter (fun s => s.isActive)).length := by
      unfold trendingShops
      rw [List.length_take, (List.perm_insertionSort trendLE _).length_eq]
    have hNw : (newShops r.catalog 6).length
        = min 6 (r.catalog.filter (fun s => s.isActive)).length := by
      unfold newShops
      rw [List.length_take, (List.perm_insertionSort createdLE _).length_eq]
    rw [getSections_noFails r uid hf] at hsec
    simp only [List.mem_append, List.mem_cons, List.not_mem_nil, or_false] at hsec
    rcases hsec with hFy | hTrMem | hNwMem
    · cases uid with
      | none => simp at hFy
      | some u =>
        have hFy2 : sec ∈ (match r.users u with
            | none => ([] : List RecSection)
            | some user =>
              match user.preferences with
              | none => []
              | some prefs =>
                [forYouSection
                  (getPersonalizedShops r.sample r.catalog prefs)]) := hFy
        rcases hu : r.users u with _ | user
        · rw [hu] at hFy2
          simp at hFy2
        · rw [hu] at hFy2
          have hFy3 : sec ∈ (match user.preferences with
              | none => ([] : List RecSection)
              | some prefs =>
                [forYouSection
                  (getPersonalizedShops r.sample r.catalog prefs)]) := hFy2
          rcases hp : user.preferences with _ | prefs
          · rw [hp] at hFy3
            simp at hFy3
          · rw [hp] at hFy3
            simp only [List.mem_singleton] at hFy3
            subst hFy3
            have : (forYouSection
                (getPersonalizedShops r.sample r.catalog prefs)).items.length
                = (getPersonalizedShops r.sample r.catalog prefs).length := by
              simp [forYouSection]
            rw [this]
            exact getPersonalizedShops_min_length r.sample r.catalog prefs hs hn hA
    · subst hTrMem
      have : (trendingSection (trendingShops r.catalog 6)).items.length
          = (trendingShops r.catalog 6).length := by
        simp [trendingSection]
      rw [this, hTr]
      omega
    · subst hNwMem
      have : (newSection (newShops r.catalog 6)).items.length
          = (newShops r.catalog 6).length := by
        simp [newSection]
      rw [this, hNw]
      omega

/-- Witness for C8: the seven-shop catalog fills every section to at least
6; the five-shop all-"Budget" catalog with a "vintage" profile exercises the
backfill equation and the exhaustion case. -/
theorem backfill_min_section_size_witness :
    (6 ≤ (getPersonalizedShops wideRepo.sample wideRepo.catalog
      defaultPreferences).length)
  ∧ (getPersonalizedShops budgetRepo.sample budgetRepo.catalog vintagePrefs
      = personalizedQuery budgetRepo.catalog vintagePrefs
        ++ budgetRepo.sample
            (6 - (personalizedQuery budgetRepo.catalog vintagePrefs).length)
            (activeSamplePool budgetRepo.catalog
              ((personalizedQuery budgetRepo.catalog vintagePrefs).map Shop.id)))
  ∧ (∀ s ∈ budgetRepo.catalog, s.isActive = true →
      s.id ∈ (getPersonalizedShops budgetRepo.sample budgetRepo.catalog
        vintagePrefs).map Shop.id)
  ∧ (∀ sec ∈ (getSections wideRepo (some 1)).data, 6 ≤ sec.items.length) :=
  ⟨(backfill_min_section_size wideRepo defaultPreferences takeSampler_spec
      (by decide)).1 (by decide),
   (backfill_min_section_size budgetRepo vintagePrefs takeSampler_spec
      (by decide)).2.1 (by decide),
   (backfill_min_section_size budgetRepo vintagePrefs takeSampler_spec
      (by decide)).2.2.1 (by decide),
   (backfill_min_section_size wideRepo defaultPreferences takeSampler_spec
      (by decide)).2.2.2 (by decide) (some 1) (fun _ => rfl)⟩
